import Mathlib

/-!
# Verification of the bmdb repository (BM-Framework/bmdb)

A shallow embedding in Lean 4 of the parts of the `bmdb` Python package that
the specification talks about:

* `src/bmdb/models.py` — the `Field` descriptor and the active-record `Model`
  (save / delete / create_table / to_dict / from_dict);
* `src/bmdb/core.py` — the `BMDB` wrapper (`execute` with per-statement
  commit/rollback, `select` SQL composition, `insert`, `update`, `delete`);
* `src/bmdb/database.py` — the `Table` fluent query builder.

Python values that flow through the layer (attribute values, SQL parameters,
defaults) are modelled by the inductive type `Value`; Python `None` is
`Value.none`.  Statements sent to the database are modelled as pure data
(`DBAction` / SQL strings plus parameter lists), and the sqlite3 connection is
modelled by a pair of abstract states (last committed state, pending state)
with `commit` / `rollback` acting on them.  Python `ValueError` paths are
modelled with `Except String`.
-/

set_option autoImplicit false

namespace BMDBSpec

/-- A Python value as it appears in this code base: `None`, an `int`,
a `str`, or a `bool`. -/
inductive Value where
  | none
  | int (n : Int)
  | str (s : String)
  | bool (b : Bool)
  deriving Repr, DecidableEq

/-- Python's `sep.join(parts)`. -/
def joinSep (sep : String) : List String → String
  | [] => ""
  | [x] => x
  | x :: y :: xs => x ++ sep ++ joinSep sep (y :: xs)

/-- Python's `str(v)` / f-string interpolation for the non-`None`,
non-string values this code interpolates into SQL (`DEFAULT {value}`). -/
def pyStr : Value → String
  | .none => "None"
  | .int n => toString n
  | .str s => s
  | .bool b => if b then "True" else "False"

/-- `Field` from `src/bmdb/models.py`: a dataclass of column name, SQL type
string and constraint flags. -/
structure Field where
  name : String
  type : String
  primary_key : Bool := false
  nullable : Bool := true
  default : Value := Value.none
  unique : Bool := false
  auto_increment : Bool := false
  deriving Repr, DecidableEq

/-- `Field.to_sql` from `src/bmdb/models.py` (lines 22–44): build the list
`parts`, appending each constraint keyword under its flag, and join with
single spaces. -/
def Field.to_sql (f : Field) : String :=
  let parts := [f.name, f.type]
  let parts := if f.primary_key then parts ++ ["PRIMARY KEY"] else parts
  let parts := if !f.nullable then parts ++ ["NOT NULL"] else parts
  let parts := if f.unique then parts ++ ["UNIQUE"] else parts
  let parts :=
    if f.default ≠ Value.none then
      match f.default with
      | Value.str s => parts ++ ["DEFAULT '" ++ s ++ "'"]
      | v => parts ++ ["DEFAULT " ++ pyStr v]
    else parts
  let parts := if f.auto_increment then parts ++ ["AUTOINCREMENT"] else parts
  joinSep " " parts

/-- The column-definition fragment as the specification words it: name and
type followed, in this fixed order and each only when its flag is set, by
`PRIMARY KEY`, `NOT NULL` (when not nullable), `UNIQUE`,
`DEFAULT <value>` (string defaults in single quotes, only when the default
is not `None`) and `AUTOINCREMENT`, joined by single spaces. -/
def columnDefSpec (f : Field) : String :=
  joinSep " "
    ([f.name, f.type]
      ++ (if f.primary_key then ["PRIMARY KEY"] else [])
      ++ (if f.nullable then [] else ["NOT NULL"])
      ++ (if f.unique then ["UNIQUE"] else [])
      ++ (match f.default with
          | Value.none => []
          | Value.str s => ["DEFAULT '" ++ s ++ "'"]
          | v => ["DEFAULT " ++ pyStr v])
      ++ (if f.auto_increment then ["AUTOINCREMENT"] else []))

/-! ## Core wrapper: `BMDB` (`src/bmdb/core.py`)

The sqlite3 connection is modelled as a pair of abstract database states:
`committed` (the state as of the last `commit()`) and `pending` (the state
the current cursor sees).  `commit` publishes `pending`; `rollback` discards
it.  Executing a single statement against the engine is an abstract function
`run : String → Option (List Value) → σ → Except ε (σ × κ)` (SQL text,
bound parameters, current state; returns the new state and a cursor value,
or raises). -/

/-- The two-level sqlite3 connection state. -/
structure Conn (σ : Type) where
  committed : σ
  pending : σ
  deriving Repr, DecidableEq

/-- `connection.commit()`. -/
def Conn.commit {σ : Type} (c : Conn σ) : Conn σ :=
  { c with committed := c.pending }

/-- `connection.rollback()`. -/
def Conn.rollback {σ : Type} (c : Conn σ) : Conn σ :=
  { c with pending := c.committed }

/-- Python truthiness of the `params` argument (`if params:`): `None` and
the empty tuple are falsy, so both result in `cursor.execute(sql)` with no
parameters. -/
def truthyParams : Option (List Value) → Option (List Value)
  | Option.none => Option.none
  | some [] => Option.none
  | some ps => some ps

/-- `BMDB.execute` from `src/bmdb/core.py` (lines 40–63): run the statement
on a cursor; on success commit and return the cursor, on failure roll back
and re-raise the exception. -/
def BMDB.execute {σ κ ε : Type}
    (run : String → Option (List Value) → σ → Except ε (σ × κ))
    (c : Conn σ) (sql : String) (params : Option (List Value)) :
    Conn σ × Except ε κ :=
  match run sql (truthyParams params) c.pending with
  | Except.ok (s, cur) => (Conn.commit { c with pending := s }, Except.ok cur)
  | Except.error e => (Conn.rollback c, Except.error e)

/-- Python truthiness of an optional string (`if where:` etc.): `None` and
`""` are falsy. -/
def strOptTruthy : Option String → Bool
  | Option.none => false
  | some s => !(s == "")

/-- Python truthiness of an optional int (`if limit:`): `None` and `0` are
falsy. -/
def intOptTruthy : Option Int → Bool
  | Option.none => false
  | some n => !(n == 0)

/-- `BMDB.insert` from `src/bmdb/core.py` (lines 87–101): the SQL text and
parameter tuple it passes to `execute`. -/
def BMDB.insert_stmt (table : String) (data : List (String × Value)) :
    String × List Value :=
  ("INSERT INTO " ++ table ++ " (" ++ joinSep ", " (data.map Prod.fst) ++
      ") VALUES (" ++ joinSep ", " (data.map fun _ => "?") ++ ")",
   data.map Prod.snd)

/-- `BMDB.update` from `src/bmdb/core.py` (lines 146–164): `SET` clause from
the data keys, values extended with the WHERE parameters when those are
truthy. -/
def BMDB.update_stmt (table : String) (data : List (String × Value))
    (whereC : String) (params : Option (List Value)) : String × List Value :=
  let values := data.map Prod.snd ++ (truthyParams params).getD []
  ("UPDATE " ++ table ++ " SET " ++
      joinSep ", " (data.map fun p => p.1 ++ " = ?") ++ " WHERE " ++ whereC,
   values)

/-- `BMDB.delete` from `src/bmdb/core.py` (lines 166–177): the SQL text; the
parameters are passed through to `execute` unchanged. -/
def BMDB.delete_stmt (table : String) (whereC : String) : String :=
  "DELETE FROM " ++ table ++ " WHERE " ++ whereC

/-- The SQL string composed by `BMDB.select` (`src/bmdb/core.py` lines
120–134), including the Python truthiness tests on each optional clause. -/
def BMDB.select_sql (table : String) (columns : Option (List String))
    (whereC : Option String) (limit : Option Int) (order_by : Option String) :
    String :=
  let cols :=
    match columns with
    | some cs => if cs.isEmpty then "*" else joinSep ", " cs
    | Option.none => "*"
  let sql := "SELECT " ++ cols ++ " FROM " ++ table
  let sql := if strOptTruthy whereC then sql ++ " WHERE " ++ whereC.getD "" else sql
  let sql := if strOptTruthy order_by then sql ++ " ORDER BY " ++ order_by.getD "" else sql
  let sql := if intOptTruthy limit then sql ++ " LIMIT " ++ toString (limit.getD 0) else sql
  sql

/-- A fetched row as sqlite3 hands it back: ordered (column name, value)
pairs. -/
def PyRow : Type := List (String × Value)

/-- One step of Python dict construction: insert a key/value pair, later
values overwriting earlier ones for the same key. -/
def dictInsert (d : List (String × Value)) (kv : String × Value) :
    List (String × Value) :=
  if d.any (fun p => p.1 == kv.1) then
    d.map fun p => if p.1 == kv.1 then kv else p
  else d ++ [kv]

/-- Python `dict(row)`: fold the row's (column, value) pairs into a dict. -/
def pyDict (row : List (String × Value)) : List (String × Value) :=
  row.foldl dictInsert []

/-- `BMDB.select` from `src/bmdb/core.py` (lines 103–144): compose the SQL,
execute it and fetch the rows (`fetch` abstracts
`self.execute(sql, params)` followed by `cursor.fetchall()`), and convert
each row to a dictionary. -/
def BMDB.select_run (fetch : String → Option (List Value) → List (List (String × Value)))
    (table : String) (columns : Option (List String)) (whereC : Option String)
    (params : Option (List Value)) (limit : Option Int) (order_by : Option String) :
    List (List (String × Value)) :=
  (fetch (BMDB.select_sql table columns whereC limit order_by) params).map pyDict

/-- The SELECT string as the specification words it: `SELECT <cols> FROM
<table>` with `<cols>` the comma-joined column list or `*` when no columns
are given, then ` WHERE <w>`, ` ORDER BY <o>`, ` LIMIT <n>` in exactly that
order, each only when the argument is provided (truthy). -/
def selectSQLSpec (table : String) (columns : Option (List String))
    (whereC : Option String) (limit : Option Int) (order_by : Option String) :
    String :=
  "SELECT " ++
    (match columns with
     | some (c :: cs) => joinSep ", " (c :: cs)
     | _ => "*") ++
  " FROM " ++ table ++
  (match whereC with
   | some w => if w == "" then "" else " WHERE " ++ w
   | Option.none => "") ++
  (match order_by with
   | some o => if o == "" then "" else " ORDER BY " ++ o
   | Option.none => "") ++
  (match limit with
   | some n => if n == 0 then "" else " LIMIT " ++ toString n
   | Option.none => "")

/-! ## Query builder: `Table` (`src/bmdb/database.py`)

`Table.__init__` stores the shared `BMDB` handle, the table name, and the
transient builder state `_where` / `_order_by` / `_limit` / `_params`.  The
connection handle plays no role in any claim about the builder state, so
the embedding keeps only the name and the four state components; the
builder methods, which mutate `self` and `return self`, become functions
from the old state to the new state. -/

structure Table where
  name : String
  _where : Option String
  _order_by : Option String
  _limit : Option Int
  _params : List Value
  deriving Repr, DecidableEq

/-- `Database.table` from `src/bmdb/database.py` (lines 15–17): construct a
fresh `Table(self.db, table_name)`. -/
def Database.table (table_name : String) : Table :=
  { name := table_name, _where := Option.none, _order_by := Option.none,
    _limit := Option.none, _params := [] }

/-- `Table.where` (lines 43–47): overwrite `_where`, extend `_params`,
return `self`. -/
def Table.whereC (t : Table) (condition : String) (params : List Value) : Table :=
  { t with _where := some condition, _params := t._params ++ params }

/-- `Table.order_by` (lines 49–52). -/
def Table.order_by (t : Table) (column : String) (direction : String) : Table :=
  { t with _order_by := some (column ++ " " ++ direction) }

/-- `Table.limit` (lines 54–57). -/
def Table.limit (t : Table) (count : Int) : Table :=
  { t with _limit := some count }

/-- `Table.get` (lines 59–67): delegate to `BMDB.select` with the
accumulated state; `params` is `tuple(self._params) if self._params else
None`. -/
def Table.get (fetch : String → Option (List Value) → List (List (String × Value)))
    (t : Table) : List (List (String × Value)) :=
  BMDB.select_run fetch t.name Option.none t._where
    (if t._params.isEmpty then Option.none else some t._params)
    t._limit t._order_by

/-- `Table.update` (lines 88–92): `ValueError` when `_where` is falsy,
otherwise the UPDATE statement handed to `BMDB.update`. -/
def Table.update (t : Table) (data : List (String × Value)) :
    Except String (String × List Value) :=
  if strOptTruthy t._where = false then
    Except.error "WHERE condition required for update"
  else
    Except.ok (BMDB.update_stmt t.name data (t._where.getD "") (some t._params))

/-- `Table.delete` (lines 94–98): `ValueError` when `_where` is falsy,
otherwise the DELETE statement and parameters handed to `BMDB.delete`. -/
def Table.delete (t : Table) : Except String (String × List Value) :=
  if strOptTruthy t._where = false then
    Except.error "WHERE condition required for delete"
  else
    Except.ok (BMDB.delete_stmt t.name (t._where.getD ""), t._params)

/-! ## ORM: `ModelMeta` and `Model` (`src/bmdb/models.py`)

A model class is its table name plus the declared fields in declaration
order (`_fields` is a Python dict built in declaration order, so its keys
are distinct).  A model instance is its class together with its attribute
state: `attrs n` is `getattr(self, n, None)`, with `Value.none` both for an
attribute set to `None` and for an absent attribute. -/

structure ModelClass where
  table_name : String
  fields : List Field

/-- `ModelMeta.__new__` field collection (`src/bmdb/models.py` lines
50–55): each `Field`-valued class attribute gets its `name` overwritten
with the attribute key. -/
def ModelMeta.collectFields (fieldAttrs : List (String × Field)) : List Field :=
  fieldAttrs.map fun kv => { kv.2 with name := kv.1 }

/-- `ModelMeta.__new__` table naming (line 58):
`attrs.get('__tablename__', name.lower() + 's')`. -/
def ModelMeta.tableName (clsName : String) (tablename : Option String) : String :=
  match tablename with
  | some t => t
  | Option.none => clsName.toLower ++ "s"

/-- `ModelMeta.__new__` (lines 49–60) as a whole: build the model class
from the Python class name, the optional `__tablename__` attribute, and
the `Field`-valued attributes in declaration order. -/
def ModelMeta.mkClass (clsName : String) (tablename : Option String)
    (fieldAttrs : List (String × Field)) : ModelClass :=
  { table_name := ModelMeta.tableName clsName tablename,
    fields := ModelMeta.collectFields fieldAttrs }

structure ModelInstance where
  cls : ModelClass
  attrs : String → Value

/-- `Model.create_table` (lines 79–87): the SQL string passed to
`self._db.execute`. -/
def Model.create_table_sql (cls : ModelClass) : String :=
  "CREATE TABLE IF NOT EXISTS " ++ cls.table_name ++ " (" ++
    joinSep ", " (cls.fields.map Field.to_sql) ++ ")"

/-- The statements the ORM issues, as pure data. -/
inductive DBAction where
  | insert (table : String) (data : List (String × Value))
  | update (table : String) (data : List (String × Value))
      (whereC : String) (params : List Value)
  | delete (table : String) (whereC : String) (params : List Value)
  | rawSQL (sql : String)
  deriving Repr, DecidableEq

/-- Is this action an UPDATE? -/
def DBAction.isUpdate : DBAction → Bool
  | DBAction.update _ _ _ _ => true
  | _ => false

/-- The `data` dict built at the top of `Model.save` (lines 94–98): the
non-`None` field values, in field declaration order. -/
def Model.saveData (m : ModelInstance) : List (String × Value) :=
  m.cls.fields.filterMap fun f =>
    if m.attrs f.name ≠ Value.none then some (f.name, m.attrs f.name)
    else Option.none

/-- `next((f for f in self._fields.values() if f.primary_key), None)`
(line 101): the first declared primary-key field, if any. -/
def Model.pk_field (cls : ModelClass) : Option Field :=
  cls.fields.find? fun f => f.primary_key

/-- `Model.save` (lines 89–118): the list of statements issued and the
attribute state afterwards.  `lastRowId` abstracts the value the extra
`SELECT last_insert_rowid()` query returns when it is issued. -/
def Model.save (m : ModelInstance) (lastRowId : Value) :
    List DBAction × (String → Value) :=
  let data := Model.saveData m
  match Model.pk_field m.cls with
  | some pk =>
    if m.attrs pk.name ≠ Value.none then
      ([DBAction.update m.cls.table_name data (pk.name ++ " = ?")
          [m.attrs pk.name]],
       m.attrs)
    else
      ([DBAction.insert m.cls.table_name data] ++
         (if pk.auto_increment then [DBAction.rawSQL "SELECT last_insert_rowid()"]
          else []),
       if pk.auto_increment then
         fun n => if n == pk.name then lastRowId else m.attrs n
       else m.attrs)
  | Option.none => ([DBAction.insert m.cls.table_name data], m.attrs)

/-- `Model.delete` (lines 165–182): `ValueError` when there is no
primary-key field or its value is `None`, otherwise the DELETE statement
issued. -/
def Model.delete (m : ModelInstance) : Except String DBAction :=
  match Model.pk_field m.cls with
  | Option.none => Except.error "Model has no primary key field"
  | some pk =>
    if m.attrs pk.name = Value.none then
      Except.error "Record has no primary key value"
    else
      Except.ok (DBAction.delete m.cls.table_name (pk.name ++ " = ?")
        [m.attrs pk.name])

/-- Python `kwargs.get(k, dflt)`: the stored value when the key is present
(even when that value is `None`), the default otherwise. -/
def pyDictGet (d : List (String × Value)) (k : String) (dflt : Value) : Value :=
  match d.find? (fun p => p.1 == k) with
  | some p => p.2
  | Option.none => dflt

/-- `Model.__init__` (lines 69–72): every declared field is set to
`kwargs.get(field_name, field_def.default)`; any other attribute is absent,
so `getattr(self, n, None)` reads `None` there.  Field names are the keys
of the `_fields` dict and hence distinct, so the first `find?` hit is the
field. -/
def Model.initAttrs (cls : ModelClass) (kwargs : List (String × Value)) :
    String → Value :=
  fun n =>
    match cls.fields.find? (fun f => f.name == n) with
    | some f => pyDictGet kwargs n f.default
    | Option.none => Value.none

/-- `Model.to_dict` (lines 184–190): `{field_name: getattr(self,
field_name, None)}` in field declaration order. -/
def Model.to_dict (m : ModelInstance) : List (String × Value) :=
  m.cls.fields.map fun f => (f.name, m.attrs f.name)

/-- `Model.from_dict` (lines 196–199): `cls(**data)`. -/
def Model.from_dict (cls : ModelClass) (data : List (String × Value)) :
    ModelInstance :=
  { cls := cls, attrs := Model.initAttrs cls data }

/-! ## Concrete fixtures used to evaluate the theorems on closed inputs -/

/-- A concrete statement runner over `Nat` states: the statement `"ok"`
succeeds and bumps the state, anything else raises `"boom"`. -/
def runFixture : String → Option (List Value) → Nat → Except String (Nat × Nat) :=
  fun sql _ s => if sql == "ok" then Except.ok (s + 1, 0) else Except.error "boom"

/-- A concrete fetch function: every query returns one two-column row. -/
def fetchFixture : String → Option (List Value) → List (List (String × Value)) :=
  fun _ _ => [[("id", Value.int 1), ("name", Value.str "a")]]

/-- The auto-increment integer primary-key field of the fixture model. -/
def userIdField : Field :=
  { name := "id", type := "INTEGER", primary_key := true, nullable := true,
    default := Value.none, unique := false, auto_increment := true }

/-- The plain text field of the fixture model. -/
def userNameField : Field :=
  { name := "name", type := "TEXT", primary_key := false, nullable := true,
    default := Value.none, unique := false, auto_increment := false }

/-- A fixture model class with a primary key. -/
def userClass : ModelClass :=
  { table_name := "users", fields := [userIdField, userNameField] }

/-- A fixture model class without any primary-key field. -/
def logClass : ModelClass :=
  { table_name := "logs",
    fields := [{ name := "msg", type := "TEXT", primary_key := false,
                 nullable := true, default := Value.none, unique := false,
                 auto_increment := false }] }

/-- Attribute state of a persisted fixture instance (`id = 7`). -/
def userAttrs7 : String → Value :=
  fun n =>
    if n == "id" then Value.int 7
    else if n == "name" then Value.str "bo" else Value.none

/-- Attribute state of a fresh, unsaved fixture instance (`id = None`). -/
def userAttrsNew : String → Value :=
  fun n => if n == "name" then Value.str "bo" else Value.none

/-! ## Theorems settling the claims -/

/-- C4: for every `Field`, `to_sql()` yields the column definition fragment
of name and type followed, in fixed order and each only under its flag, by
`PRIMARY KEY`, `NOT NULL` (when nullable is false), `UNIQUE`,
`DEFAULT <value>` (string defaults in single quotes, only for a non-`None`
default) and `AUTOINCREMENT`, joined by single spaces. -/
theorem field_to_sql_eq_columnDefSpec (f : Field) :
    f.to_sql = columnDefSpec f := by
  obtain ⟨n, t, pk, nl, d, u, ai⟩ := f
  cases pk <;> cases nl <;> cases u <;> cases ai <;> cases d <;>
    simp [Field.to_sql, columnDefSpec]

/-- C3: `BMDB.execute` commits the connection and returns the cursor when
the statement succeeds; when it raises, the connection is rolled back and
the same exception is re-raised, and — since the wrapper commits after
every statement, `pending = committed` on entry — the connection state is
exactly as before the failed statement. -/
theorem bmdb_execute_txn {σ κ ε : Type}
    (run : String → Option (List Value) → σ → Except ε (σ × κ))
    (c : Conn σ) (sql : String) (params : Option (List Value)) :
    (∀ s cur, run sql (truthyParams params) c.pending = Except.ok (s, cur) →
      BMDB.execute run c sql params =
        ({ committed := s, pending := s }, Except.ok cur)) ∧
    (∀ e, run sql (truthyParams params) c.pending = Except.error e →
      BMDB.execute run c sql params = (Conn.rollback c, Except.error e)) ∧
    (∀ e, c.pending = c.committed →
      run sql (truthyParams params) c.pending = Except.error e →
      BMDB.execute run c sql params = (c, Except.error e)) := by
  refine ⟨fun s cur h => ?_, fun e h => ?_, fun e hpc h => ?_⟩
  · simp [BMDB.execute, h, Conn.commit]
  · simp [BMDB.execute, h]
  · obtain ⟨cc, cp⟩ := c
    simp only at hpc h
    subst hpc
    simp [BMDB.execute, h, Conn.rollback]

/-- C3 witness: the transaction behaviour of `execute` evaluated on the
concrete runner. -/
theorem bmdb_execute_txn_witness :
    BMDB.execute runFixture { committed := 0, pending := 0 } "ok" Option.none =
      ({ committed := 1, pending := 1 }, Except.ok 0) ∧
    BMDB.execute runFixture { committed := 5, pending := 5 } "bad" Option.none =
      ({ committed := 5, pending := 5 }, Except.error "boom") :=
  ⟨(bmdb_execute_txn runFixture { committed := 0, pending := 0 } "ok"
      Option.none).1 1 0 rfl,
   (bmdb_execute_txn runFixture { committed := 5, pending := 5 } "bad"
      Option.none).2.2 "boom" rfl rfl⟩

/-- C6: `create_table` executes exactly
`CREATE TABLE IF NOT EXISTS <table_name> (<defs>)`, where `<defs>` is the
comma-space-joined `Field.to_sql()` fragments of the declared fields in
declaration order and `<table_name>` is `__tablename__` when declared,
otherwise the lowercased class name with `s` appended. -/
theorem model_create_table_sql_spec (clsName : String) (tablename : Option String)
    (fieldAttrs : List (String × Field)) :
    Model.create_table_sql (ModelMeta.mkClass clsName tablename fieldAttrs) =
      "CREATE TABLE IF NOT EXISTS " ++
        (match tablename with
         | some t => t
         | Option.none => clsName.toLower ++ "s") ++ " (" ++
        joinSep ", "
          (fieldAttrs.map fun kv => Field.to_sql { kv.2 with name := kv.1 }) ++
        ")" := by
  cases tablename <;>
    simp [Model.create_table_sql, ModelMeta.mkClass, ModelMeta.tableName,
      ModelMeta.collectFields, List.map_map, Function.comp_def]

/-- C7: `Database.table` returns a fresh `Table` with no where clause, no
order-by, no limit and an empty parameter list, and each builder method
returns the very builder it was called on, updated in place: `whereC` sets
the condition and extends the parameters, `order_by` and `limit` set their
single component, with all other components unchanged. -/
theorem table_builder_state (n : String) (t : Table) (c : String)
    (ps : List Value) (col dir : String) (k : Int) :
    Database.table n =
      { name := n, _where := Option.none, _order_by := Option.none,
        _limit := Option.none, _params := [] } ∧
    Table.whereC t c ps =
      { t with _where := some c, _params := t._params ++ ps } ∧
    Table.order_by t col dir =
      { t with _order_by := some (col ++ " " ++ dir) } ∧
    Table.limit t k = { t with _limit := some k } :=
  ⟨rfl, rfl, rfl, rfl⟩

/-- C8: on a `Table` whose where condition was never set, both `update` and
`delete` raise `ValueError` and hand no statement to the database, so an
unconditioned builder can never issue a table-wide UPDATE or DELETE. -/
theorem table_update_delete_require_where (t : Table)
    (data : List (String × Value)) (h : t._where = Option.none) :
    Table.update t data = Except.error "WHERE condition required for update" ∧
    Table.delete t = Except.error "WHERE condition required for delete" := by
  constructor <;> simp [Table.update, Table.delete, strOptTruthy, h]

/-- C8 witness: a fresh builder refuses both `update` and `delete`. -/
theorem table_update_delete_require_where_witness :
    Table.update (Database.table "users") [("name", Value.str "x")] =
      Except.error "WHERE condition required for update" ∧
    Table.delete (Database.table "users") =
      Except.error "WHERE condition required for delete" :=
  table_update_delete_require_where (Database.table "users")
    [("name", Value.str "x")] rfl

/-- C9: a second `where()` call replaces the stored condition but appends
its parameters to those already accumulated, so the executed query uses
only the last condition together with the concatenation of both calls'
parameter lists. -/
theorem table_where_twice (t : Table) (c1 c2 : String) (p1 p2 : List Value)
    (fetch : String → Option (List Value) → List (List (String × Value))) :
    (Table.whereC (Table.whereC t c1 p1) c2 p2)._where = some c2 ∧
    (Table.whereC (Table.whereC t c1 p1) c2 p2)._params =
      t._params ++ p1 ++ p2 ∧
    ((t._params ++ p1 ++ p2).isEmpty = false →
      Table.get fetch (Table.whereC (Table.whereC t c1 p1) c2 p2) =
        BMDB.select_run fetch t.name Option.none (some c2)
          (some (t._params ++ p1 ++ p2)) t._limit t._order_by) := by
  refine ⟨rfl, by simp [Table.whereC], fun h => ?_⟩
  have hne : ¬(t._params = [] ∧ p1 = [] ∧ p2 = []) := by
    rintro ⟨h1, h2, h3⟩
    simp [h1, h2, h3] at h
  simp [Table.get, Table.whereC, hne, List.append_assoc]

/-- C9 witness: two chained `where()` calls on a fresh builder. -/
theorem table_where_twice_witness :
    Table.get fetchFixture
        (Table.whereC (Table.whereC (Database.table "users") "a = ?"
          [Value.int 1]) "b = ?" [Value.int 2]) =
      BMDB.select_run fetchFixture "users" Option.none (some "b = ?")
        (some ([] ++ [Value.int 1] ++ [Value.int 2])) Option.none Option.none :=
  (table_where_twice (Database.table "users") "a = ?" "b = ?" [Value.int 1]
    [Value.int 2] fetchFixture).2.2 rfl

/-- C5: `BMDB.select` composes exactly
`SELECT <cols> FROM <table>[ WHERE <w>][ ORDER BY <o>][ LIMIT <n>]` — `*`
when no columns are given, the optional clauses appended in that fixed
order and each only when its argument is truthy — and returns one
dictionary per fetched row, mapping column names to values. -/
theorem bmdb_select_spec
    (fetch : String → Option (List Value) → List (List (String × Value)))
    (table : String) (columns : Option (List String)) (whereC : Option String)
    (params : Option (List Value)) (limit : Option Int)
    (order_by : Option String) :
    BMDB.select_sql table columns whereC limit order_by =
      selectSQLSpec table columns whereC limit order_by ∧
    BMDB.select_run fetch table columns whereC params limit order_by =
      (fetch (selectSQLSpec table columns whereC limit order_by) params).map
        pyDict := by
  have hsql : BMDB.select_sql table columns whereC limit order_by =
      selectSQLSpec table columns whereC limit order_by := by
    rcases columns with _ | ⟨_ | ⟨c, cs⟩⟩ <;>
      rcases whereC with _ | w <;>
      rcases order_by with _ | o <;>
      rcases limit with _ | n <;>
        simp [BMDB.select_sql, selectSQLSpec, strOptTruthy, intOptTruthy] <;>
        first
          | rfl
          | (split_ifs <;> simp_all [String.append_assoc])
  exact ⟨hsql, by simp [BMDB.select_run, hsql]⟩

/-- C1: primary-key-aware save dispatch.  With a declared primary key whose
value is not `None`, `save()` issues an UPDATE of the non-`None` field
values restricted by `pk = ?` with the primary-key value as parameter.
With the primary-key value `None` it issues an INSERT of the non-`None`
field values, followed — exactly when the field is `auto_increment` — by
`SELECT last_insert_rowid()` whose result is written to the primary-key
attribute.  Without any primary-key field it issues only the INSERT. -/
theorem model_save_dispatch (m : ModelInstance) (rowid : Value) :
    (∀ pk, Model.pk_field m.cls = some pk →
      (m.attrs pk.name ≠ Value.none →
        Model.save m rowid =
          ([DBAction.update m.cls.table_name (Model.saveData m)
              (pk.name ++ " = ?") [m.attrs pk.name]], m.attrs)) ∧
      (m.attrs pk.name = Value.none → pk.auto_increment = true →
        Model.save m rowid =
          ([DBAction.insert m.cls.table_name (Model.saveData m),
            DBAction.rawSQL "SELECT last_insert_rowid()"],
           fun n => if n == pk.name then rowid else m.attrs n)) ∧
      (m.attrs pk.name = Value.none → pk.auto_increment = false →
        Model.save m rowid =
          ([DBAction.insert m.cls.table_name (Model.saveData m)], m.attrs))) ∧
    (Model.pk_field m.cls = Option.none →
      Model.save m rowid =
        ([DBAction.insert m.cls.table_name (Model.saveData m)], m.attrs)) := by
  constructor
  · intro pk hpk
    refine ⟨fun hne => ?_, fun h0 hai => ?_, fun h0 hai => ?_⟩
    · simp [Model.save, hpk, hne]
    · simp [Model.save, hpk, h0, hai]
    · simp [Model.save, hpk, h0, hai]
  · intro hpk
    simp [Model.save, hpk]

/-- C1 witness: the fixture model updates when `id = 7` and inserts plus
reads back the rowid when `id` is `None`. -/
theorem model_save_dispatch_witness :
    Model.save { cls := userClass, attrs := userAttrs7 } (Value.int 9) =
      ([DBAction.update userClass.table_name
          (Model.saveData { cls := userClass, attrs := userAttrs7 })
          (userIdField.name ++ " = ?") [userAttrs7 userIdField.name]],
        userAttrs7) ∧
    Model.save { cls := userClass, attrs := userAttrsNew } (Value.int 9) =
      ([DBAction.insert userClass.table_name
          (Model.saveData { cls := userClass, attrs := userAttrsNew }),
        DBAction.rawSQL "SELECT last_insert_rowid()"],
        fun n => if n == userIdField.name then Value.int 9
                 else userAttrsNew n) :=
  ⟨((model_save_dispatch { cls := userClass, attrs := userAttrs7 }
        (Value.int 9)).1 userIdField rfl).1 (by decide),
   ((model_save_dispatch { cls := userClass, attrs := userAttrsNew }
        (Value.int 9)).1 userIdField rfl).2.1 (by decide) rfl⟩

/-- C2: update and delete require a primary-key value.  `delete()` raises
`ValueError` when there is no primary-key field or its value is `None`,
and the UPDATE branch of `save()` is taken exactly when a primary-key
field exists and its value is not `None`. -/
theorem model_pk_required (m : ModelInstance) (rowid : Value) :
    (Model.pk_field m.cls = Option.none →
      Model.delete m = Except.error "Model has no primary key field") ∧
    (∀ pk, Model.pk_field m.cls = some pk → m.attrs pk.name = Value.none →
      Model.delete m = Except.error "Record has no primary key value") ∧
    ((Model.save m rowid).1.any DBAction.isUpdate = true ↔
      ∃ pk, Model.pk_field m.cls = some pk ∧ m.attrs pk.name ≠ Value.none) := by
  refine ⟨fun h => by simp [Model.delete, h],
    fun pk hpk h0 => by simp [Model.delete, hpk, h0], ?_⟩
  rcases hpk : Model.pk_field m.cls with _ | pk
  · simp [Model.save, hpk, DBAction.isUpdate]
  · by_cases hne : m.attrs pk.name = Value.none
    · cases hai : pk.auto_increment <;>
        simp [Model.save, hpk, hne, hai, DBAction.isUpdate]
    · simp [Model.save, hpk, hne, DBAction.isUpdate]

/-- C2 witness: a model class without a primary key and an instance whose
primary key is `None` are both refused by `delete()`. -/
theorem model_pk_required_witness :
    Model.delete { cls := logClass, attrs := fun _ => Value.none } =
      Except.error "Model has no primary key field" ∧
    Model.delete { cls := userClass, attrs := userAttrsNew } =
      Except.error "Record has no primary key value" :=
  ⟨(model_pk_required { cls := logClass, attrs := fun _ => Value.none }
      Value.none).1 rfl,
   (model_pk_required { cls := userClass, attrs := userAttrsNew }
      Value.none).2.1 userIdField rfl (by decide)⟩

/-- Helper: in the association list `to_dict` builds, the first entry whose
key equals a declared field's name carries that field's attribute value. -/
theorem find?_to_dict_entry (attrs : String → Value) (l : List Field)
    (f : Field) (hf : f ∈ l) :
    (l.map fun g => (g.name, attrs g.name)).find? (fun p => p.1 == f.name) =
      some (f.name, attrs f.name) := by
  induction l with
  | nil => cases hf
  | cons g t ih =>
    by_cases hgf : g.name = f.name
    · simp [List.find?_cons, hgf]
    · have hft : f ∈ t := by
        rcases List.mem_cons.mp hf with rfl | hft
        · exact absurd rfl hgf
        · exact hft
      simpa [List.find?_cons, hgf] using ih hft

/-- Helper: a declared field is found by name in the field list. -/
theorem find?_field_by_name (l : List Field) (f : Field) (hf : f ∈ l) :
    ∃ g, l.find? (fun g => g.name == f.name) = some g := by
  have hs : (l.find? fun g => g.name == f.name).isSome := by
    rw [List.find?_isSome]
    exact ⟨f, hf, by simp⟩
  exact Option.isSome_iff_exists.mp hs

/-- C10: `from_dict ∘ to_dict` is the identity on declared-field state:
the round-tripped instance reads the same value as the original for every
declared field (missing attributes reading as `None` on both sides). -/
theorem model_to_dict_from_dict_roundtrip (cls : ModelClass)
    (attrs : String → Value) (f : Field) (hf : f ∈ cls.fields) :
    (Model.from_dict cls (Model.to_dict { cls := cls, attrs := attrs })).attrs
        f.name = attrs f.name := by
  obtain ⟨g, hg⟩ := find?_field_by_name cls.fields f hf
  simp only [Model.from_dict, Model.initAttrs, Model.to_dict]
  rw [hg]
  simp [pyDictGet, find?_to_dict_entry attrs cls.fields f hf]

/-- C10 witness: the round trip on the fixture instance preserves the
primary-key value. -/
theorem model_to_dict_from_dict_roundtrip_witness :
    (Model.from_dict userClass
        (Model.to_dict { cls := userClass, attrs := userAttrs7 })).attrs
        userIdField.name = userAttrs7 userIdField.name :=
  model_to_dict_from_dict_roundtrip userClass userAttrs7 userIdField
    (by decide)

end BMDBSpec
